import Mathlib

/-!
Verification development for the image-cloaking web application.

The definitions below are shallow embeddings of the JavaScript sources:
numbers are modelled as exact rationals, typed-array stores as
round-then-clamp on rationals, environment-supplied values (wall-clock
timings, gradients from the randomly initialized surrogate model,
trigonometric noise, canvas resampling, face-detector internals) as
explicit oracle parameters.
-/

/-- JavaScript Math.sign restricted to finite inputs. -/
def jsSign (x : ℚ) : ℚ :=
  if 0 < x then 1 else if x < 0 then -1 else 0

/-- JavaScript Math.round: round half toward positive infinity. -/
def jsRound (x : ℚ) : ℤ :=
  ⌊x + 1/2⌋

/-- A store into a Uint8ClampedArray slot after the source code has already
applied Math.round(Math.max(0, Math.min(255, x))). -/
def uint8Clamped (x : ℚ) : ℚ :=
  ((jsRound (max 0 (min 255 x)) : ℤ) : ℚ)

/-- tf.clipByValue on a single element. -/
def clipByValue (x lo hi : ℚ) : ℚ :=
  min hi (max lo x)

section Throttle

/-- Performance grades of the processing throttle
(src/web/src/utils/processingThrottle.js). -/
inductive PerformanceGrade where
  | excellent
  | good
  | fair
  | poor
deriving DecidableEq, Repr

open PerformanceGrade

/-- The fields of ProcessingThrottle that its decision logic reads
(src/web/src/utils/processingThrottle.js, constructor lines 7-29). -/
structure ThrottleState where
  frameBudget : ℚ
  processingTime : ℚ
  performanceGrade : PerformanceGrade
  memoryPressure : ℚ
  realFPS : ℚ
  isThrottling : Bool
deriving DecidableEq, Repr

/-- The constructor defaults of ProcessingThrottle. -/
def throttleDefaults : ThrottleState :=
  { frameBudget := 8
    processingTime := 0
    performanceGrade := good
    memoryPressure := 0
    realFPS := 60
    isThrottling := false }

/-- ProcessingThrottle.updatePerformanceGrade (lines 68-81): recompute the
memory-pressure value from a fresh usage sample against the session baseline,
then grade by frame rate and pressure. -/
def updatePerformanceGrade (st : ThrottleState) (memoryUsage memoryBaseline : ℚ) :
    ThrottleState :=
  let pressure := max 0 ((memoryUsage - memoryBaseline) / memoryBaseline)
  let grade :=
    if 50 < st.realFPS ∧ pressure < 0.3 then excellent
    else if 40 < st.realFPS ∧ pressure < 0.5 then good
    else if 25 < st.realFPS ∧ pressure < 0.8 then fair
    else poor
  { st with memoryPressure := pressure, performanceGrade := grade }

/-- The adaptive frame-budget update performed by the frame-monitoring
callback (line 51): frameBudget = max(4, min(12, avgFrameTime * 0.5)). -/
def updateFrameBudget (avgFrameTime : ℚ) : ℚ :=
  max 4 (min 12 (avgFrameTime * 0.5))

/-- ProcessingThrottle.shouldYield (lines 84-116).  The optional argument
models the processingStartTime parameter (null or a truthy timestamp); `now`
models performance.now().  Returns the decision plus the updated state. -/
def shouldYield (st : ThrottleState) (processingStartTime : Option ℚ) (now : ℚ) :
    Bool × ThrottleState :=
  let pt := match processingStartTime with
    | some t => now - t
    | none => st.processingTime
  let st := { st with processingTime := pt }
  if st.frameBudget ≤ pt then (true, { st with isThrottling := true })
  else if st.performanceGrade = poor then (true, { st with isThrottling := true })
  else if 0.7 < st.memoryPressure then (true, { st with isThrottling := true })
  else if st.realFPS < 30 then (true, { st with isThrottling := true })
  else (false, st)

/-- The decision rule exactly as the specification words it: yield when the
slice time meets the budget, the grade is poor, the memory-pressure RATIO
current/baseline exceeds 0.7, or the frame rate is below 30. -/
def specYieldCondition (st : ThrottleState) (processingStartTime : Option ℚ)
    (now memoryUsage memoryBaseline : ℚ) : Prop :=
  let pt := match processingStartTime with
    | some t => now - t
    | none => st.processingTime
  st.frameBudget ≤ pt ∨ st.performanceGrade = poor ∨
    0.7 < memoryUsage / memoryBaseline ∨ st.realFPS < 30

instance (st : ThrottleState) (pst : Option ℚ) (now u b : ℚ) :
    Decidable (specYieldCondition st pst now u b) := by
  unfold specYieldCondition
  exact inferInstance

end Throttle

section Chunked

/-- Classification of a chunk's measured processing time against the frame
budget: below half the budget (grow), above 0.8 of the budget (shrink), or
in between (keep).  The wall-clock measurement itself is environmental, so
it enters the model as an oracle producing this classification per chunk. -/
inductive ChunkTiming where
  | fast
  | normal
  | slow
deriving DecidableEq, Repr

/-- The adaptive chunk-size update of processInChunks
(src/web/src/utils/processingThrottle.js lines 259-266). -/
def nextChunkSize (maxChunkSize minChunkSize s : ℕ) : ChunkTiming → ℕ
  | ChunkTiming.fast => min maxChunkSize ⌈(s : ℚ) * 1.2⌉₊
  | ChunkTiming.slow => max minChunkSize ⌈(s : ℚ) * 0.8⌉₊
  | ChunkTiming.normal => s

/-- The loop of processInChunks (lines 248-278).  The loop variable i is
incremented by adaptiveChunkSize AFTER the body has already replaced
adaptiveChunkSize with the next size, exactly as in the source.  Fuel bounds
the recursion; arr.length + 1 steps suffice whenever every chunk size is
positive, which holds for the default options. -/
def processInChunksGo {α β : Type} (f : List α → ℕ → List β)
    (timing : ℕ → ChunkTiming) (maxChunkSize minChunkSize : ℕ) (arr : List α) :
    ℕ → ℕ → ℕ → ℕ → List β
  | 0, _, _, _ => []
  | fuel + 1, i, s, k =>
    if i < arr.length then
      let chunk := (arr.drop i).take s
      let chunkResults := f chunk i
      let s2 := nextChunkSize maxChunkSize minChunkSize s (timing k)
      chunkResults ++ processInChunksGo f timing maxChunkSize minChunkSize arr fuel (i + s2) s2 (k + 1)
    else []

/-- processInChunks (lines 229-281): run the adaptive loop from i = 0 with
the given initial chunk size. -/
def processInChunks {α β : Type} (arr : List α) (f : List α → ℕ → List β)
    (timing : ℕ → ChunkTiming)
    (initialChunkSize maxChunkSize minChunkSize : ℕ) : List β :=
  processInChunksGo f timing maxChunkSize minChunkSize arr (arr.length + 1) 0 initialChunkSize 0

/-- processInChunks under its default options initialChunkSize = 10,
maxChunkSize = 100, minChunkSize = 1 (lines 234-241). -/
def processInChunksDefault {α β : Type} (arr : List α) (f : List α → ℕ → List β)
    (timing : ℕ → ChunkTiming) : List β :=
  processInChunks arr f timing 10 100 1

end Chunked

section Metrics

/-- A decoded ImageData value: dimensions plus the RGBA byte buffer.
Stored values are modelled as exact rationals. -/
structure ImageData where
  width : ℕ
  height : ℕ
  data : List ℚ
deriving DecidableEq, Repr

/-- Number of iterations of a JavaScript loop
`for (i = 0; i < d.length; i += 4)`. -/
def pixelCount (d : List ℚ) : ℕ :=
  (d.length + 3) / 4

/-- One accumulation step of the shared RGB squared-error loop of
calculatePSNR and calculateMSE: (rDiff² + gDiff² + bDiff²) / 3 at byte
offset i.  Out-of-range reads default to 0 (irrelevant for well-formed
RGBA buffers, whose length is a multiple of 4). -/
def mseTerm (o p : List ℚ) (i : ℕ) : ℚ :=
  ((o.getD i 0 - p.getD i 0) ^ 2 + (o.getD (i + 1) 0 - p.getD (i + 1) 0) ^ 2 +
    (o.getD (i + 2) 0 - p.getD (i + 2) 0) ^ 2) / 3

/-- The accumulated value of the squared-error loop over a whole buffer. -/
def mseSum (o p : List ℚ) : ℚ :=
  ∑ k ∈ Finset.range (pixelCount o), mseTerm o p (4 * k)

/-- Result of calculatePSNR.  The finite branch computes the transcendental
value 20·log10(255/√mse), which is a strictly decreasing function of mse;
the embedding carries the mse argument symbolically. -/
inductive PSNRValue where
  | infinite
  | db (mse : ℚ)
deriving DecidableEq, Repr

/-- calculatePSNR (src/unnamed/part_013 lines 352-378): throws on length
mismatch, returns Infinity when the mean squared error is exactly zero. -/
def calculatePSNR (origData procData : List ℚ) : Except String PSNRValue :=
  if origData.length ≠ procData.length then
    Except.error "Images must have the same dimensions"
  else
    let mse := mseSum origData procData / ((origData.length : ℚ) / 4)
    if mse = 0 then Except.ok PSNRValue.infinite else Except.ok (PSNRValue.db mse)

/-- calculateMSE (part_013 lines 417-433). -/
def calculateMSE (origData procData : List ℚ) : ℚ :=
  mseSum origData procData / ((origData.length : ℚ) / 4)

/-- The grayscale luminance read at byte offset i
(0.299·R + 0.587·G + 0.114·B). -/
def luma (d : List ℚ) (i : ℕ) : ℚ :=
  0.299 * d.getD i 0 + 0.587 * d.getD (i + 1) 0 + 0.114 * d.getD (i + 2) 0

/-- Accumulated luminance over the first n pixels. -/
def lumaSumOver (n : ℕ) (d : List ℚ) : ℚ :=
  ∑ k ∈ Finset.range n, luma d (4 * k)

/-- Accumulated product of luminances over the first n pixels; instantiated
as x·x, y·y and x·y in calculateSSIM. -/
def lumaMulSumOver (n : ℕ) (o p : List ℚ) : ℚ :=
  ∑ k ∈ Finset.range n, luma o (4 * k) * luma p (4 * k)

/-- calculateSSIM (part_013 lines 381-414): the simplified single-window
luminance SSIM.  The accumulation loop runs over the original buffer; the
normalizer is width·height. -/
def calculateSSIM (original processed : ImageData) : ℚ :=
  let c1 : ℚ := 6.5025
  let c2 : ℚ := 58.5225
  let n := pixelCount original.data
  let numPixels : ℚ := ((original.width * original.height : ℕ) : ℚ)
  let sumX := lumaSumOver n original.data
  let sumY := lumaSumOver n processed.data
  let sumXX := lumaMulSumOver n original.data original.data
  let sumYY := lumaMulSumOver n processed.data processed.data
  let sumXY := lumaMulSumOver n original.data processed.data
  let meanX := sumX / numPixels
  let meanY := sumY / numPixels
  let varX := sumXX / numPixels - meanX * meanX
  let varY := sumYY / numPixels - meanY * meanY
  let covXY := sumXY / numPixels - meanX * meanY
  ((2 * meanX * meanY + c1) * (2 * covXY + c2)) /
    ((meanX * meanX + meanY * meanY + c1) * (varX + varY + c2))

/-- calculatePerceptualDistance (part_013 lines 436-453); the square root is
the environment's floating-point sqrt, supplied as an oracle. -/
def calculatePerceptualDistance (jsSqrt : ℚ → ℚ) (origData procData : List ℚ) : ℚ :=
  (∑ k ∈ Finset.range (pixelCount origData),
    jsSqrt ((origData.getD (4 * k) 0 - procData.getD (4 * k) 0) ^ 2 +
      (origData.getD (4 * k + 1) 0 - procData.getD (4 * k + 1) 0) ^ 2 +
      (origData.getD (4 * k + 2) 0 - procData.getD (4 * k + 2) 0) ^ 2)) /
    ((origData.length : ℚ) / 4)

/-- The record returned by calculateImageMetrics; a `none` field is the
JavaScript null ("unavailable"). -/
structure QualityMetrics where
  psnr : Option PSNRValue
  ssim : Option ℚ
  mse : Option ℚ
  perceptual_distance : Option ℚ
deriving DecidableEq, Repr

/-- The all-null record produced by the catch handler. -/
def nullMetrics : QualityMetrics :=
  { psnr := none, ssim := none, mse := none, perceptual_distance := none }

/-- The metrics object built on the success path once calculatePSNR has
returned a value. -/
def computedMetrics (jsSqrt : ℚ → ℚ) (original processed : ImageData)
    (psnrValue : PSNRValue) : QualityMetrics :=
  { psnr := some psnrValue
    ssim := some (calculateSSIM original processed)
    mse := some (calculateMSE original.data processed.data)
    perceptual_distance :=
      some (calculatePerceptualDistance jsSqrt original.data processed.data) }

/-- calculateImageMetrics, first variant (part_013 lines 178-208): decodes
both data URLs (decoding outcomes are parameters), THROWS when the decoded
dimensions differ, and the surrounding catch converts every failure into
the all-null record. -/
def calculateImageMetricsA (jsSqrt : ℚ → ℚ)
    (decodedOriginal decodedProcessed : Except String ImageData) : QualityMetrics :=
  match decodedOriginal, decodedProcessed with
  | Except.ok o, Except.ok p =>
    if o.width ≠ p.width ∨ o.height ≠ p.height then nullMetrics
    else
      match calculatePSNR o.data p.data with
      | Except.error _ => nullMetrics
      | Except.ok v => computedMetrics jsSqrt o p v
  | _, _ => nullMetrics

/-- calculateImageMetrics, second variant (part_013 lines 456-521): on a
dimension mismatch the original is redrawn on a canvas at the processed
dimensions (the canvas interpolation is the `resample` oracle) before the
metrics are computed; any failure is converted into the all-null record. -/
def calculateImageMetricsB (jsSqrt : ℚ → ℚ)
    (resample : ImageData → ℕ → ℕ → ImageData)
    (decodedOriginal decodedProcessed : Except String ImageData) : QualityMetrics :=
  match decodedOriginal, decodedProcessed with
  | Except.ok o, Except.ok p =>
    let finalOriginal :=
      if o.width ≠ p.width ∨ o.height ≠ p.height then resample o p.width p.height
      else o
    (match calculatePSNR finalOriginal.data p.data with
    | Except.error _ => nullMetrics
    | Except.ok v => computedMetrics jsSqrt finalOriginal p v)
  | _, _ => nullMetrics

/-- The fields of the result record that handleProcessingComplete reads
(src/web/src/hooks/useImageCloaking.js lines 353-466). -/
structure WorkerResultRecord (Img : Type) where
  imageDataURL : Option Img
  processedDataURL : Option Img
  facesDetected : ℕ
deriving DecidableEq, Repr

/-- handleProcessingComplete: metrics are computed only when both the
original and the processed image are present, any metrics failure is
replaced by the all-null record, and the delivered image is
result.imageDataURL || result.processedDataURL regardless of the metrics
outcome.  Returns (delivered image, metrics). -/
def handleProcessingComplete {Img : Type} (result : WorkerResultRecord Img)
    (originalImageDataURL : Option Img)
    (metricsOutcome : Except String QualityMetrics) : Option Img × QualityMetrics :=
  let qualityMetrics :=
    match originalImageDataURL, result.imageDataURL with
    | some _, some _ =>
      match metricsOutcome with
      | Except.ok m => m
      | Except.error _ => nullMetrics
    | _, _ => nullMetrics
  (result.imageDataURL.orElse fun _ => result.processedDataURL, qualityMetrics)

end Metrics

section Attack

/-- A detected face region (src/unnamed/part_012, FastFaceDetector /
MediaPipe detections): bounding box plus confidence. -/
structure FaceRegion where
  x : ℚ
  y : ℚ
  width : ℚ
  height : ℚ
  confidence : ℚ
deriving DecidableEq, Repr

/-- The per-channel body of the pixel-update loop of
applyFastGlobalPerturbations (part_012 lines 391-406): step in the gradient
sign direction, clip the cumulative difference from the original back into
the epsilon-ball, then clamp to [0,255] and round for the Uint8ClampedArray
store. -/
def updateChannel (epsilon alpha grad origByte curByte : ℚ) : ℚ :=
  let originalValue := origByte / 255
  let currentValue := curByte / 255
  let stepped := currentValue + alpha * jsSign grad
  let diff := stepped - originalValue
  let clipped := if epsilon < |diff| then originalValue + epsilon * jsSign diff else stepped
  uint8Clamped (clipped * 255)

/-- One iteration of applyFastGlobalPerturbations (lines 378-420): the
chunked loops over pixelIdx ∈ [0, totalPixels) and c < 3 touch every RGB
byte exactly once, in index order, whenever the chunk size
min(4000, ⌊totalPixels/8⌋) is positive; the alpha byte is untouched.
`grads` is the gradient buffer computed once per iteration (an oracle,
since the surrogate model weights are random). -/
def perturbOnce (epsilon alpha : ℚ) (grads : ℕ → ℚ) (origData curData : List ℚ) :
    List ℚ :=
  (List.range curData.length).map fun j =>
    if j % 4 < 3 then updateChannel epsilon alpha (grads j) (origData.getD j 0) (curData.getD j 0)
    else curData.getD j 0

/-- applyFastGlobalPerturbations (part_012 lines 374-421): iterate the
per-step update with alpha = epsilon / iterations; the gradient oracle is
indexed by iteration because gradients are recomputed from the current
image each round. -/
def applyFastGlobalPerturbations (epsilon : ℚ) (iterations : ℕ)
    (grads : ℕ → ℕ → ℚ) (origData curData : List ℚ) : List ℚ :=
  (List.range iterations).foldl
    (fun acc iter => perturbOnce epsilon (epsilon / (iterations : ℚ)) (grads iter) origData acc)
    curData

/-- The loop counters 0, 2, 4, ... strictly below the (possibly negative)
bound n, as produced by `for (d = 0; d < n; d += 2)`. -/
def evensBelow (n : ℤ) : List ℕ :=
  (List.range ((n.toNat + 1) / 2)).map (2 * ·)

/-- Store v at signed byte index i of a Uint8ClampedArray buffer; JavaScript
silently ignores out-of-range typed-array stores. -/
def storeAt (l : List ℚ) (i : ℤ) (v : ℚ) : List ℚ :=
  if 0 ≤ i ∧ i.toNat < l.length then l.set i.toNat v else l

/-- The sub-region perturbation patterns of applyFacePerturbations
(part_012 lines 340-344): [rx, ry, rw, rh] plus a strength weight. -/
def facePatterns : List ((ℚ × ℚ × ℚ × ℚ) × ℚ) :=
  [((0.2, 0.3, 0.6, 0.2), 1.2), ((0.4, 0.4, 0.2, 0.3), 0.8), ((0.3, 0.65, 0.4, 0.15), 1.0)]

/-- The write performed for one in-bounds pattern pixel (lines 358-367):
sinusoidal noise added to the ORIGINAL byte, clamped and rounded.  sinO and
cosO are the environment's Math.sin and Math.cos. -/
def facePixelWrite (sinO cosO : ℚ → ℚ) (epsilon strength : ℚ) (width height : ℕ)
    (regionX regionY : ℤ) (origData : List ℚ) (cur : List ℚ) (dxy : ℕ × ℕ) : List ℚ :=
  let px := regionX + dxy.1
  let py := regionY + dxy.2
  if px < (width : ℤ) ∧ py < (height : ℤ) then
    let idx := (py * width + px) * 4
    let noise := sinO ((dxy.1 : ℚ) * 0.3) * cosO ((dxy.2 : ℚ) * 0.3) * epsilon * strength * 255
    (List.range 3).foldl
      (fun acc c =>
        storeAt acc (idx + (c : ℤ)) (uint8Clamped (origData.getD (idx + (c : ℤ)).toNat 0 + noise)))
      cur
  else cur

/-- applyFacePerturbations (part_012 lines 336-372): for each fixed pattern,
walk the pattern sub-region of the face box on a stride of 2 and perturb
the RGB bytes with sinusoidal noise relative to the original data. -/
def applyFacePerturbations (sinO cosO : ℚ → ℚ) (epsilon : ℚ) (face : FaceRegion)
    (width height : ℕ) (origData : List ℚ) (newData : List ℚ) : List ℚ :=
  facePatterns.foldl
    (fun acc pat =>
      let rx := pat.1.1
      let ry := pat.1.2.1
      let rw := pat.1.2.2.1
      let rh := pat.1.2.2.2
      let strength := pat.2
      let regionX := ⌊face.x + face.width * rx⌋
      let regionY := ⌊face.y + face.height * ry⌋
      let regionW := ⌊face.width * rw⌋
      let regionH := ⌊face.height * rh⌋
      ((evensBelow regionH).flatMap fun dy => (evensBelow regionW).map fun dx => (dx, dy)).foldl
        (facePixelWrite sinO cosO epsilon strength width height regionX regionY origData)
        acc)
    newData

/-- applyFastAdversarialAttack (part_012 lines 307-325): face-scoped pass at
1.5x strength over each detected region, then the global iterative pass at
0.7x strength with 8 iterations fixed by the caller. -/
def applyFastAdversarialAttack (sinO cosO : ℚ → ℚ) (grads : ℕ → ℕ → ℚ)
    (faces : List FaceRegion) (epsilon : ℚ) (iterations : ℕ) (img : ImageData) :
    ImageData :=
  let afterFaces := faces.foldl
    (fun acc f => applyFacePerturbations sinO cosO (epsilon * 1.5) f img.width img.height img.data acc)
    img.data
  { img with data := applyFastGlobalPerturbations (epsilon * 0.7) iterations grads img.data afterFaces }

/-- applyFastGlobalAttack (part_012 lines 327-334). -/
def applyFastGlobalAttack (grads : ℕ → ℕ → ℚ) (epsilon : ℚ) (iterations : ℕ)
    (img : ImageData) : ImageData :=
  { img with data := applyFastGlobalPerturbations epsilon iterations grads img.data img.data }

/-- The epsilon chosen by the fast processImageWithFawkes (part_012 line
254) from the protection level, defaulting to 0.05. -/
def fastFawkesEpsilon (protectionLevel : String) : ℚ :=
  if protectionLevel = "low" then 0.03
  else if protectionLevel = "mid" then 0.05
  else if protectionLevel = "high" then 0.07
  else 0.05

/-- The fast processImageWithFawkes (part_012 lines 236-274): detect faces
(outcome supplied as the `faces` argument), then run
applyFastAdversarialAttack with 8 iterations.  There is no zero-face check
on this path: an empty detection list simply skips the face loop and the
global pass still runs. -/
def fastProcessImageWithFawkes (sinO cosO : ℚ → ℚ) (grads : ℕ → ℕ → ℚ)
    (protectionLevel : String) (faces : List FaceRegion) (img : ImageData) :
    Except String ImageData :=
  Except.ok (applyFastAdversarialAttack sinO cosO grads faces (fastFawkesEpsilon protectionLevel) 8 img)

/-- The perturbation strength actually passed on by the fast
processImageWithAdvCloak (part_012 line 288). -/
def fastAdvCloakAppliedEpsilon (epsilon : ℚ) : ℚ :=
  min epsilon 0.06

/-- The iteration count actually passed on by the fast
processImageWithAdvCloak (part_012 line 288). -/
def fastAdvCloakAppliedIterations (iterations : ℕ) : ℕ :=
  min iterations 15

/-- The fast processImageWithAdvCloak (part_012 lines 276-305): global
attack with the capped epsilon and iteration count. -/
def fastProcessImageWithAdvCloak (grads : ℕ → ℕ → ℚ) (epsilon : ℚ)
    (iterations : ℕ) (img : ImageData) : ImageData :=
  applyFastGlobalAttack grads (fastAdvCloakAppliedEpsilon epsilon)
    (fastAdvCloakAppliedIterations iterations) img

/-- One element of the tf.tidy body of
IterativeFGSMAttack.generatePerturbation
(src/web/src/utils/cloakingEngine.js lines 316-330): add the signed step,
clip the perturbation from the original into [-epsilon, epsilon], re-add,
and clip to the valid range [-1, 1]. -/
def iterFGSMStep (epsilon stepSize orig adv grad : ℚ) : ℚ :=
  let step := jsSign grad * stepSize
  let tentativeAdversarial := adv + step
  let perturbation := tentativeAdversarial - orig
  let clippedPerturbation := clipByValue perturbation (-epsilon) epsilon
  let clippedAdversarial := orig + clippedPerturbation
  clipByValue clippedAdversarial (-1) 1

end Attack

section Pipelines

/-- The no-face error message thrown by processImageWithFawkes
(cloakingEngine.js line 485) and by the hook gate
(useImageCloaking.js line 221). -/
def noFacesMessage : String :=
  "No faces detected in the image. Fawkes protection requires faces to be present."

/-- Epsilon and iteration count chosen by the TensorFlow
processImageWithFawkes from the protection level (cloakingEngine.js lines
489-506). -/
def fawkesProtectionParams (protectionLevel : String) : ℚ × ℕ :=
  if protectionLevel = "low" then (0.02, 5)
  else if protectionLevel = "mid" then (0.03, 10)
  else if protectionLevel = "high" then (0.05, 15)
  else (0.03, 10)

/-- Result record of the TensorFlow processing functions
(cloakingEngine.js lines 560-568 and 629-636). -/
structure CloakOutcome (Img : Type) where
  processedDataURL : Img
  facesDetected : ℕ
  epsilon : ℚ
  iterations : ℕ
deriving DecidableEq, Repr

/-- Control flow of the TensorFlow processImageWithFawkes (cloakingEngine.js
lines 466-574): run face detection, raise the no-face error before any
attack work when zero regions were found, otherwise attack and package the
result.  The second component lists the inputs on which detectFaces was
invoked.  The attack pipeline (surrogate model, I-FGSM, encode) is the
`attack` oracle. -/
def processImageWithFawkesTF {Img : Type} (det : Img → List FaceRegion)
    (attack : Img → Img) (protectionLevel : String) (img : Img) :
    Except String (CloakOutcome Img) × List Img :=
  let faces := det img
  if faces.length = 0 then (Except.error noFacesMessage, [img])
  else
    let p := fawkesProtectionParams protectionLevel
    (Except.ok { processedDataURL := attack img, facesDetected := faces.length,
                 epsilon := p.1, iterations := p.2 }, [img])

/-- Control flow of the TensorFlow processImageWithAdvCloak
(cloakingEngine.js lines 576-642): detection runs unconditionally (its
count goes into the result) and the FGSM attack is applied to the whole
image. -/
def processImageWithAdvCloakTF {Img : Type} (det : Img → List FaceRegion)
    (attack : Img → Img) (epsilon : ℚ) (iterations : ℕ) (img : Img) :
    CloakOutcome Img × List Img :=
  let faces := det img
  ({ processedDataURL := attack img, facesDetected := faces.length,
     epsilon := epsilon, iterations := iterations }, [img])

/-- Control flow of processOnMainThread for method "both"
(useImageCloaking.js lines 319-335): Fawkes first, then AdvCloak applied to
the intermediate processedDataURL.  Detection traces are concatenated. -/
def processOnMainThreadBoth {Img : Type} (det : Img → List FaceRegion)
    (fawkesAttack advCloakAttack : Img → Img) (protectionLevel : String)
    (epsilon : ℚ) (iterations : ℕ) (img : Img) : Except String Img × List Img :=
  match processImageWithFawkesTF det fawkesAttack protectionLevel img with
  | (Except.error e, trace) => (Except.error e, trace)
  | (Except.ok fawkesResult, trace) =>
    let second := processImageWithAdvCloakTF det advCloakAttack epsilon iterations
      fawkesResult.processedDataURL
    (Except.ok second.1.processedDataURL, trace ++ second.2)

/-- The face gate of processWithWorker (useImageCloaking.js lines 213-222):
faces are required only for the methods "fawkes" and "both". -/
def processWithWorkerGate (method : String) (faces : List FaceRegion) :
    Except String Unit :=
  if faces.length = 0 ∧ (method = "fawkes" ∨ method = "both") then
    Except.error noFacesMessage
  else Except.ok ()

/-- Control flow of processWithWorker (useImageCloaking.js lines 213-299):
detect faces once on the main thread, apply the gate, then hand the image
and the detected faces to the worker (the worker computation is the
`workerCompute` oracle; the worker performs no detection of its own).  The
second component lists the inputs on which detectFaces was invoked. -/
def processWithWorker {Img : Type} (det : Img → List FaceRegion)
    (workerCompute : List FaceRegion → Img → Img) (method : String) (img : Img) :
    Except String Img × List Img :=
  let faces := det img
  match processWithWorkerGate method faces with
  | Except.error e => (Except.error e, [img])
  | Except.ok _ => (Except.ok (workerCompute faces img), [img])

/-- Control flow of the worker processWithBoth (cloakingWorker.js lines
847-889): the face list received from the main thread is passed unchanged
to both phases; the worker never calls a detector, so its detection trace
is empty. -/
def workerProcessWithBoth {Img : Type} (fawkesStep advCloakStep : Img → Img)
    (faces : List FaceRegion) (img : Img) : (Img × ℕ) × List Img :=
  let fawkesResult := fawkesStep img
  let finalResult := advCloakStep fawkesResult
  ((finalResult, faces.length), [])

/-- Control flow of detectFaces (cloakingEngine.js lines 645-674): the
detector handle is awaited OUTSIDE the try block, so an initialization
failure propagates (initializeFaceDetector rethrows it as its own message,
lines 74-77), while any failure of the detection work inside the try block
is caught and converted to an empty list. -/
def detectFacesEngine {Detector : Type} (initOutcome : Except String Detector)
    (run : Detector → Except String (List FaceRegion)) :
    Except String (List FaceRegion) :=
  match initOutcome with
  | Except.error _ => Except.error "Face detector initialization failed"
  | Except.ok detector =>
    match run detector with
    | Except.error _ => Except.ok []
    | Except.ok detections => Except.ok detections

end Pipelines


/-- Helper: the grown chunk size min(100, ceil(10 * 1.2)) is 12. -/
theorem nextChunkSize_ten_fast : nextChunkSize 100 1 10 ChunkTiming.fast = 12 := by
  show min 100 ⌈((10 : ℕ) : ℚ) * 1.2⌉₊ = 12
  rw [show (⌈((10 : ℕ) : ℚ) * 1.2⌉₊ : ℕ) = 12 by
    rw [Nat.ceil_eq_iff (by norm_num)]; norm_num]
  omega

/-- Helper: the shrunk chunk size max(1, ceil(10 * 0.8)) is 8. -/
theorem nextChunkSize_ten_slow : nextChunkSize 100 1 10 ChunkTiming.slow = 8 := by
  show max 1 ⌈((10 : ℕ) : ℚ) * 0.8⌉₊ = 8
  rw [show (⌈((10 : ℕ) : ℚ) * 0.8⌉₊ : ℕ) = 8 by
    rw [Nat.ceil_eq_iff (by norm_num)]; norm_num]
  omega

/-- Helper: the shrunk chunk size max(1, ceil(8 * 0.8)) is 7. -/
theorem nextChunkSize_eight_slow : nextChunkSize 100 1 8 ChunkTiming.slow = 7 := by
  show max 1 ⌈((8 : ℕ) : ℚ) * 0.8⌉₊ = 7
  rw [show (⌈((8 : ℕ) : ℚ) * 0.8⌉₊ : ℕ) = 7 by
    rw [Nat.ceil_eq_iff (by norm_num)]; norm_num]
  omega

/-- C3 (amended): shouldYield returns true exactly when the slice time
(updated from processingStartTime when one is passed) meets or exceeds the
adaptive frame budget, or the grade is poor, or the memory-pressure VALUE
max(0, (current - baseline)/baseline) maintained by updatePerformanceGrade
exceeds 0.7, or the measured frame rate is below 30; the budget defaults
to 8ms and its adaptive update is clamped to [4ms, 12ms]. -/
theorem shouldYield_decision_rule :
    (∀ (st : ThrottleState) (pst : Option ℚ) (now : ℚ),
      ((shouldYield st pst now).1 = true ↔
        (st.frameBudget ≤ (match pst with | some t => now - t | none => st.processingTime) ∨
          st.performanceGrade = PerformanceGrade.poor ∨
          0.7 < st.memoryPressure ∨ st.realFPS < 30)))
    ∧ (∀ (st : ThrottleState) (u b : ℚ),
        (updatePerformanceGrade st u b).memoryPressure = max 0 ((u - b) / b))
    ∧ throttleDefaults.frameBudget = 8
    ∧ (∀ avg : ℚ, 4 ≤ updateFrameBudget avg ∧ updateFrameBudget avg ≤ 12) := by
  refine ⟨?_, ?_, rfl, ?_⟩
  · intro st pst now
    unfold shouldYield
    cases pst <;> dsimp only <;> split_ifs <;> simp_all
  · intro st u b
    rfl
  · intro avg
    exact ⟨le_max_left _ _, max_le (by norm_num) (min_le_left _ _)⟩

/-- C3 counterexample: with a memory usage of 80 against a baseline of 100
the ratio current/baseline is 0.8 > 0.7, so the claimed decision rule
demands a yield, but the code computes the pressure value
max(0, (80-100)/100) = 0 and shouldYield returns false (frame rate 60,
grade excellent, no slice time accrued). -/
theorem shouldYield_ratio_claim_mismatch :
    specYieldCondition (updatePerformanceGrade throttleDefaults 80 100) none 0 80 100
    ∧ (shouldYield (updatePerformanceGrade throttleDefaults 80 100) none 0).1 = false := by
  constructor
  · unfold specYieldCondition updatePerformanceGrade throttleDefaults
    norm_num
  · unfold shouldYield updatePerformanceGrade throttleDefaults
    norm_num
    decide

/-- C9: the adaptive chunk loop updates adaptiveChunkSize before the loop
increment i += adaptiveChunkSize, so on a 12-element array with the
default initial size 10 a fast first chunk grows the size to 12 and skips
elements 10 and 11, while a slow first chunk shrinks the size to 8 and
processes elements 8 and 9 twice; in both cases the concatenated results
differ from the plain sequential map (the identity processor should
return the array itself). -/
theorem processInChunks_adaptive_mismatch :
    processInChunksDefault (List.range 12) (fun chunk _ => chunk) (fun _ => ChunkTiming.fast)
      = List.range 10
    ∧ processInChunksDefault (List.range 12) (fun chunk _ => chunk) (fun _ => ChunkTiming.slow)
      = List.range 10 ++ [8, 9, 10, 11]
    ∧ processInChunksDefault (List.range 12) (fun chunk _ => chunk) (fun _ => ChunkTiming.fast)
      ≠ List.range 12
    ∧ processInChunksDefault (List.range 12) (fun chunk _ => chunk) (fun _ => ChunkTiming.slow)
      ≠ List.range 12 := by
  have hfast : processInChunksDefault (List.range 12) (fun chunk _ => chunk)
      (fun _ => ChunkTiming.fast) = List.range 10 := by
    unfold processInChunksDefault processInChunks
    simp [processInChunksGo, nextChunkSize_ten_fast]
    decide
  have hslow : processInChunksDefault (List.range 12) (fun chunk _ => chunk)
      (fun _ => ChunkTiming.slow) = List.range 10 ++ [8, 9, 10, 11] := by
    unfold processInChunksDefault processInChunks
    simp [processInChunksGo, nextChunkSize_ten_slow, nextChunkSize_eight_slow]
    decide
  refine ⟨hfast, hslow, ?_, ?_⟩
  · rw [hfast]; decide
  · rw [hslow]; decide

/-- C10: the fast processImageWithAdvCloak caps the applied epsilon at 0.06
and the applied iteration count at 15, so any two parameter choices at or
above the caps (for example epsilon 0.12 with 50 iterations, both inside
the documented AttackConfig ranges) produce identical output. -/
theorem fastAdvCloak_caps_parameters :
    (∀ epsilon : ℚ, fastAdvCloakAppliedEpsilon epsilon ≤ 0.06)
    ∧ (∀ iterations : ℕ, fastAdvCloakAppliedIterations iterations ≤ 15)
    ∧ (∀ (grads : ℕ → ℕ → ℚ) (img : ImageData) (e₁ e₂ : ℚ) (n₁ n₂ : ℕ),
        0.06 ≤ e₁ → 0.06 ≤ e₂ → 15 ≤ n₁ → 15 ≤ n₂ →
        fastProcessImageWithAdvCloak grads e₁ n₁ img
          = fastProcessImageWithAdvCloak grads e₂ n₂ img) := by
  refine ⟨fun _ => min_le_right _ _, fun _ => min_le_right _ _, ?_⟩
  intro grads img e₁ e₂ n₁ n₂ h₁ h₂ h₃ h₄
  unfold fastProcessImageWithAdvCloak fastAdvCloakAppliedEpsilon fastAdvCloakAppliedIterations
  rw [min_eq_right h₁, min_eq_right h₂, Nat.min_eq_right h₃, Nat.min_eq_right h₄]

/-- C10 witness: instantiating the cap theorem at epsilon 0.12 vs 0.06 and
50 vs 15 iterations on a one-pixel image. -/
theorem fastAdvCloak_caps_parameters_witness :
    ((0.06 : ℚ) ≤ 0.12 ∧ (0.06 : ℚ) ≤ 0.06 ∧ 15 ≤ 50 ∧ 15 ≤ 15)
    ∧ fastProcessImageWithAdvCloak (fun _ _ => 0) 0.12 50 ⟨1, 1, [0, 0, 0, 255]⟩
        = fastProcessImageWithAdvCloak (fun _ _ => 0) 0.06 15 ⟨1, 1, [0, 0, 0, 255]⟩ :=
  ⟨⟨by norm_num, le_refl _, by norm_num, le_refl _⟩,
    fastAdvCloak_caps_parameters.2.2 (fun _ _ => 0) ⟨1, 1, [0, 0, 0, 255]⟩ 0.12 0.06 50 15
      (by norm_num) (le_refl _) (by norm_num) (le_refl _)⟩

/-- C6 counterexample: when detector initialization fails, detectFaces
propagates the initialization error instead of returning an empty region
list. -/
theorem detectFaces_init_failure_propagates :
    @detectFacesEngine Unit (Except.error "boom") (fun _ => Except.ok [])
      = Except.error "Face detector initialization failed"
    ∧ @detectFacesEngine Unit (Except.error "boom") (fun _ => Except.ok [])
      ≠ Except.ok ([] : List FaceRegion) :=
  ⟨rfl, by simp [detectFacesEngine]⟩

/-- C6 (amended): once the detector handle is available, any failure of the
detection work itself is caught and yields an empty list, and successful
detection passes the regions through; but a detector initialization
failure propagates as an error. -/
theorem detectFaces_never_throws_after_setup :
    (∀ (D : Type) (d : D) (e : String),
      detectFacesEngine (Except.ok d) (fun _ => Except.error e) = Except.ok [])
    ∧ (∀ (D : Type) (d : D) (faces : List FaceRegion),
      detectFacesEngine (Except.ok d) (fun _ => Except.ok faces) = Except.ok faces)
    ∧ (∀ (D : Type) (e : String) (run : D → Except String (List FaceRegion)),
      detectFacesEngine (Except.error e) run
        = Except.error "Face detector initialization failed") :=
  ⟨fun _ _ _ => rfl, fun _ _ _ => rfl, fun _ _ _ => rfl⟩

/-- C5 counterexample: the fast-engine processImageWithFawkes performs no
zero-face check: with an empty detection list on a concrete 8-pixel gray
image it returns the perturbed image (the face loop is skipped but the
global pass still runs) instead of raising the no-faces error. -/
theorem fastFawkes_missing_no_face_gate :
    fastProcessImageWithFawkes (fun _ => 0) (fun _ => 0) (fun _ _ => 1) "mid" []
        ⟨8, 1, [100, 100, 100, 255, 100, 100, 100, 255, 100, 100, 100, 255, 100, 100, 100, 255,
                100, 100, 100, 255, 100, 100, 100, 255, 100, 100, 100, 255, 100, 100, 100, 255]⟩
      = Except.ok (applyFastAdversarialAttack (fun _ => 0) (fun _ => 0) (fun _ _ => 1) []
          (fastFawkesEpsilon "mid") 8
          ⟨8, 1, [100, 100, 100, 255, 100, 100, 100, 255, 100, 100, 100, 255, 100, 100, 100, 255,
                  100, 100, 100, 255, 100, 100, 100, 255, 100, 100, 100, 255, 100, 100, 100, 255]⟩)
    ∧ fastProcessImageWithFawkes (fun _ => 0) (fun _ => 0) (fun _ _ => 1) "mid" []
        ⟨8, 1, [100, 100, 100, 255, 100, 100, 100, 255, 100, 100, 100, 255, 100, 100, 100, 255,
                100, 100, 100, 255, 100, 100, 100, 255, 100, 100, 100, 255, 100, 100, 100, 255]⟩
      ≠ Except.error noFacesMessage :=
  ⟨rfl, by simp [fastProcessImageWithFawkes]⟩

/-- C5 (amended): on the TensorFlow engine path and on the worker path
(whose gate lives in the hook), a zero-face detection with method fawkes
or both raises the no-faces error immediately, independently of the attack
pipeline (so before any perturbation work); the message states that Fawkes
protection requires faces.  The fast-engine fawkes path has no such gate. -/
theorem noFaces_error_before_perturbation :
    (∀ (Img : Type) (attack : Img → Img) (protectionLevel : String) (img : Img),
      (processImageWithFawkesTF (fun _ => []) attack protectionLevel img).1
        = Except.error noFacesMessage)
    ∧ (∀ (Img : Type) (workerCompute : List FaceRegion → Img → Img) (img : Img),
      (processWithWorker (fun _ => []) workerCompute "fawkes" img).1
        = Except.error noFacesMessage)
    ∧ (∀ (Img : Type) (workerCompute : List FaceRegion → Img → Img) (img : Img),
      (processWithWorker (fun _ => []) workerCompute "both" img).1
        = Except.error noFacesMessage)
    ∧ (∀ (Img : Type) (fawkesAttack advCloakAttack : Img → Img) (lvl : String)
        (epsilon : ℚ) (iterations : ℕ) (img : Img),
      (processOnMainThreadBoth (fun _ => []) fawkesAttack advCloakAttack lvl epsilon
          iterations img).1 = Except.error noFacesMessage)
    ∧ noFacesMessage
        = "No faces detected in the image. Fawkes protection requires faces to be present." :=
  ⟨fun _ _ _ _ => rfl, fun _ _ _ => rfl, fun _ _ _ => rfl, fun _ _ _ _ _ _ _ => rfl, rfl⟩

/-- C2: on the main-thread path, combined mode runs face detection twice:
processImageWithFawkes detects on the input and, when at least one face is
found, processImageWithAdvCloak detects AGAIN on the intermediate fawkes
output; on the worker path detection happens exactly once (in the hook) and
the worker's processWithBoth reuses the received face list and performs no
detection of its own.  The concrete instance exhibits the second pass. -/
theorem combinedMode_detection_trace :
    (∀ (Img : Type) (det : Img → List FaceRegion) (fawkesAttack advCloakAttack : Img → Img)
        (lvl : String) (epsilon : ℚ) (iterations : ℕ) (img : Img),
      (processOnMainThreadBoth det fawkesAttack advCloakAttack lvl epsilon iterations img).2
        = if (det img).length = 0 then [img] else [img, fawkesAttack img])
    ∧ (∀ (Img : Type) (det : Img → List FaceRegion)
        (workerCompute : List FaceRegion → Img → Img) (img : Img),
      (processWithWorker det workerCompute "both" img).2 = [img])
    ∧ (∀ (Img : Type) (fawkesStep advCloakStep : Img → Img) (faces : List FaceRegion)
        (img : Img),
      (workerProcessWithBoth fawkesStep advCloakStep faces img).2 = [])
    ∧ (processOnMainThreadBoth (fun _ => [⟨0, 0, 48, 48, 1⟩]) id id "mid" 0.04 12 ()).2.length
        = 2 := by
  refine ⟨?_, ?_, fun _ _ _ _ _ => rfl, rfl⟩
  · intro Img det fawkesAttack advCloakAttack lvl epsilon iterations img
    unfold processOnMainThreadBoth processImageWithFawkesTF processImageWithAdvCloakTF
    by_cases h : (det img).length = 0 <;> simp [h]
  · intro Img det workerCompute img
    unfold processWithWorker processWithWorkerGate
    by_cases h : (det img).length = 0 <;> simp [h]

/-- C7: any failure while decoding either image makes calculateImageMetrics
(resampling variant) return the all-null record instead of throwing, the
throwing variant likewise returns all-null on a failure of its metric
computation, and handleProcessingComplete delivers the processed image
(result.imageDataURL falling back to result.processedDataURL) no matter
what the metrics outcome was, substituting the all-null record when the
metrics step failed. -/
theorem metrics_failures_never_block_delivery :
    (∀ (jsSqrt : ℚ → ℚ) (resample : ImageData → ℕ → ℕ → ImageData) (e : String)
        (decodedProcessed : Except String ImageData),
      calculateImageMetricsB jsSqrt resample (Except.error e) decodedProcessed = nullMetrics)
    ∧ (∀ (jsSqrt : ℚ → ℚ) (resample : ImageData → ℕ → ℕ → ImageData)
        (decodedOriginal : Except String ImageData) (e : String),
      calculateImageMetricsB jsSqrt resample decodedOriginal (Except.error e) = nullMetrics)
    ∧ (∀ (jsSqrt : ℚ → ℚ) (e : String) (decodedProcessed : Except String ImageData),
      calculateImageMetricsA jsSqrt (Except.error e) decodedProcessed = nullMetrics)
    ∧ (∀ (Img : Type) (result : WorkerResultRecord Img) (orig : Option Img)
        (metricsOutcome : Except String QualityMetrics),
      (handleProcessingComplete result orig metricsOutcome).1
        = result.imageDataURL.orElse fun _ => result.processedDataURL)
    ∧ (∀ (Img : Type) (result : WorkerResultRecord Img) (orig : Option Img) (e : String),
      (handleProcessingComplete result orig (Except.error e)).2 = nullMetrics) := by
  refine ⟨?_, ?_, ?_, fun _ _ _ _ => rfl, ?_⟩
  · intro jsSqrt resample e dP
    cases dP <;> rfl
  · intro jsSqrt resample dO e
    cases dO <;> rfl
  · intro jsSqrt e dP
    cases dP <;> rfl
  · intro Img result orig e
    obtain ⟨iU, pU, n⟩ := result
    cases orig <;> cases iU <;> rfl

/-- C4 counterexample: the first calculateImageMetrics variant throws on a
dimension mismatch, so with a 1x1 original and a 2x1 processed image the
catch handler returns the all-null record: the comparison fails instead of
resampling. -/
theorem calculateImageMetricsA_mismatch_returns_null :
    calculateImageMetricsA (fun q => q)
        (Except.ok ⟨1, 1, [0, 0, 0, 255]⟩)
        (Except.ok ⟨2, 1, [0, 0, 0, 255, 0, 0, 0, 255]⟩) = nullMetrics
    ∧ (⟨1, 1, [0, 0, 0, 255]⟩ : ImageData).width
        ≠ (⟨2, 1, [0, 0, 0, 255, 0, 0, 0, 255]⟩ : ImageData).width :=
  ⟨rfl, by decide⟩

/-- C4 (amended): the second calculateImageMetrics variant does implement
the claim: whenever the decoded dimensions differ, the original is redrawn
at the processed dimensions by the canvas-interpolation oracle and all four
metrics are computed on the resampled pair (in particular the result is not
the all-null record). -/
theorem calculateImageMetricsB_resamples (jsSqrt : ℚ → ℚ)
    (resample : ImageData → ℕ → ℕ → ImageData) (o p : ImageData)
    (hdim : o.width ≠ p.width ∨ o.height ≠ p.height)
    (hlen : (resample o p.width p.height).data.length = p.data.length) :
    ∃ v : PSNRValue,
      calculatePSNR (resample o p.width p.height).data p.data = Except.ok v ∧
      calculateImageMetricsB jsSqrt resample (Except.ok o) (Except.ok p)
        = computedMetrics jsSqrt (resample o p.width p.height) p v ∧
      (calculateImageMetricsB jsSqrt resample (Except.ok o) (Except.ok p)).psnr ≠ none := by
  have hp : ∃ v : PSNRValue,
      calculatePSNR (resample o p.width p.height).data p.data = Except.ok v := by
    unfold calculatePSNR
    rw [if_neg (by simp [hlen])]
    dsimp only
    split_ifs <;> exact ⟨_, rfl⟩
  obtain ⟨v, hv⟩ := hp
  refine ⟨v, hv, ?_, ?_⟩
  · unfold calculateImageMetricsB
    dsimp only
    rw [if_pos hdim, hv]
  · unfold calculateImageMetricsB
    dsimp only
    rw [if_pos hdim, hv]
    simp [computedMetrics]

/-- C4 witness: the resampling variant applied to a 1x1 original and a 2x1
processed image with a concrete resampling oracle produces populated
metrics. -/
theorem calculateImageMetricsB_resamples_witness :
    ((⟨1, 1, [0, 0, 0, 255]⟩ : ImageData).width
        ≠ (⟨2, 1, [0, 0, 0, 255, 0, 0, 0, 255]⟩ : ImageData).width
      ∨ (⟨1, 1, [0, 0, 0, 255]⟩ : ImageData).height
        ≠ (⟨2, 1, [0, 0, 0, 255, 0, 0, 0, 255]⟩ : ImageData).height)
    ∧ ((fun (_ : ImageData) (w h : ℕ) => (⟨w, h, [1, 2, 3, 255, 4, 5, 6, 255]⟩ : ImageData))
        (⟨1, 1, [0, 0, 0, 255]⟩ : ImageData) 2 1).data.length
        = (⟨2, 1, [0, 0, 0, 255, 0, 0, 0, 255]⟩ : ImageData).data.length
    ∧ (calculateImageMetricsB (fun q => q)
        (fun _ w h => ⟨w, h, [1, 2, 3, 255, 4, 5, 6, 255]⟩)
        (Except.ok ⟨1, 1, [0, 0, 0, 255]⟩)
        (Except.ok ⟨2, 1, [0, 0, 0, 255, 0, 0, 0, 255]⟩)).psnr ≠ none :=
  ⟨by decide, by decide, by
    obtain ⟨v, hv, heq, hne⟩ := calculateImageMetricsB_resamples (fun q => q)
      (fun _ w h => ⟨w, h, [1, 2, 3, 255, 4, 5, 6, 255]⟩)
      ⟨1, 1, [0, 0, 0, 255]⟩ ⟨2, 1, [0, 0, 0, 255, 0, 0, 0, 255]⟩
      (by decide) (by decide)
    exact hne⟩

/-- Helper for C8: a fraction whose numerator and denominator coincide up to
ring normalization equals one as soon as the shared factors are positive. -/
theorem ssim_self_aux (A V : ℚ) (hV : 0 ≤ V) :
    (2 * A * A + 6.5025) * (2 * V + 58.5225) /
      ((A * A + A * A + 6.5025) * (V + V + 58.5225)) = 1 := by
  have h1 : (0:ℚ) < A * A + A * A + 6.5025 := by nlinarith [mul_self_nonneg A]
  have h2 : (0:ℚ) < V + V + 58.5225 := by linarith
  have h3 : (2 * A * A + 6.5025) * (2 * V + 58.5225)
      = (A * A + A * A + 6.5025) * (V + V + 58.5225) := by ring
  rw [h3, div_self (ne_of_gt (mul_pos h1 h2))]

/-- Helper for C8: the sample variance term sumXX/n - mean² is nonnegative,
given the Cauchy-Schwarz bound on the sums. -/
theorem div_sq_sub_nonneg (S1 S2 N : ℚ) (hN : 0 < N) (hCS : S1 ^ 2 ≤ N * S2) :
    0 ≤ S2 / N - S1 / N * (S1 / N) := by
  rw [div_mul_div_comm, sub_nonneg, div_le_div_iff₀ (by positivity) hN]
  nlinarith [mul_le_mul_of_nonneg_right hCS hN.le]

/-- Helper for C8: Cauchy-Schwarz for the luminance sums. -/
theorem lumaCS (d : List ℚ) (m : ℕ) :
    lumaSumOver m d ^ 2 ≤ (m : ℚ) * lumaMulSumOver m d d := by
  have h : (∑ k ∈ Finset.range m, luma d (4 * k)) ^ 2
      ≤ (((Finset.range m).card : ℕ) : ℚ) * ∑ k ∈ Finset.range m, luma d (4 * k) ^ 2 :=
    sq_sum_le_card_mul_sum_sq
  rw [Finset.card_range] at h
  unfold lumaSumOver lumaMulSumOver
  calc (∑ k ∈ Finset.range m, luma d (4 * k)) ^ 2
      ≤ (m : ℚ) * ∑ k ∈ Finset.range m, luma d (4 * k) ^ 2 := h
    _ = (m : ℚ) * ∑ k ∈ Finset.range m, luma d (4 * k) * luma d (4 * k) := by
        congr 1
        exact Finset.sum_congr rfl fun k _ => pow_two _

/-- C8: comparing a well-formed nonempty image with itself gives
PSNR = Infinity (the zero-mse branch), SSIM exactly 1 (numerator and
denominator coincide and are positive because the sample variance is
nonnegative), and MSE = 0. -/
theorem metrics_identity_comparison (d : ImageData)
    (hw : d.data.length = 4 * (d.width * d.height)) (hn : 0 < d.width * d.height) :
    calculatePSNR d.data d.data = Except.ok PSNRValue.infinite
    ∧ calculateSSIM d d = 1
    ∧ calculateMSE d.data d.data = 0 := by
  have hms : mseSum d.data d.data = 0 := by
    unfold mseSum mseTerm
    simp
  refine ⟨?_, ?_, ?_⟩
  · unfold calculatePSNR
    rw [if_neg (by simp)]
    dsimp only
    rw [hms, zero_div]
    simp
  · have hpix : pixelCount d.data = d.width * d.height := by
      unfold pixelCount
      omega
    have hN : (0:ℚ) < ((d.width * d.height : ℕ) : ℚ) := by exact_mod_cast hn
    unfold calculateSSIM
    dsimp only
    rw [hpix]
    exact ssim_self_aux _ _ (div_sq_sub_nonneg _ _ _ hN (lumaCS d.data (d.width * d.height)))
  · unfold calculateMSE
    rw [hms, zero_div]

/-- C8 witness: the identity comparison on a concrete 1x1 image. -/
theorem metrics_identity_comparison_witness :
    (⟨1, 1, [10, 20, 30, 255]⟩ : ImageData).data.length
      = 4 * ((⟨1, 1, [10, 20, 30, 255]⟩ : ImageData).width
          * (⟨1, 1, [10, 20, 30, 255]⟩ : ImageData).height)
    ∧ 0 < (⟨1, 1, [10, 20, 30, 255]⟩ : ImageData).width
        * (⟨1, 1, [10, 20, 30, 255]⟩ : ImageData).height
    ∧ (calculatePSNR (⟨1, 1, [10, 20, 30, 255]⟩ : ImageData).data
          (⟨1, 1, [10, 20, 30, 255]⟩ : ImageData).data = Except.ok PSNRValue.infinite
      ∧ calculateSSIM ⟨1, 1, [10, 20, 30, 255]⟩ ⟨1, 1, [10, 20, 30, 255]⟩ = 1
      ∧ calculateMSE (⟨1, 1, [10, 20, 30, 255]⟩ : ImageData).data
          (⟨1, 1, [10, 20, 30, 255]⟩ : ImageData).data = 0) :=
  ⟨by decide, by decide,
    metrics_identity_comparison ⟨1, 1, [10, 20, 30, 255]⟩ (by decide) (by decide)⟩

/-- Helper: Math.sign never exceeds 1 in magnitude. -/
theorem abs_jsSign_le (x : ℚ) : |jsSign x| ≤ 1 := by
  unfold jsSign
  split_ifs <;> norm_num

/-- Helper for C1: the epsilon-ball clip of the fast global pass leaves the
normalized value within epsilon of the original normalized value. -/
theorem clip_step_abs (epsilon O s : ℚ) (hε : 0 ≤ epsilon) :
    |(if epsilon < |s - O| then O + epsilon * jsSign (s - O) else s) - O| ≤ epsilon := by
  split_ifs with h
  · rw [add_sub_cancel_left, abs_mul]
    calc |epsilon| * |jsSign (s - O)| ≤ |epsilon| * 1 :=
          mul_le_mul_of_nonneg_left (abs_jsSign_le _) (abs_nonneg _)
      _ = epsilon := by rw [mul_one, abs_of_nonneg hε]
  · exact le_of_not_lt h

/-- Helper: truncating from above by a bound that dominates the target never
moves a value further from the target. -/
theorem abs_min_sub_le (b x t : ℚ) (h : t ≤ b) : |min b x - t| ≤ |x - t| := by
  rcases le_total x b with hx | hx
  · rw [min_eq_right hx]
  · rw [min_eq_left hx, abs_of_nonneg (by linarith), abs_of_nonneg (by linarith)]
    linarith

/-- Helper: truncating from below by a bound that the target dominates never
moves a value further from the target. -/
theorem abs_max_sub_le (a x t : ℚ) (h : a ≤ t) : |max a x - t| ≤ |x - t| := by
  rcases le_total a x with hx | hx
  · rw [max_eq_right hx]
  · rw [max_eq_left hx, abs_of_nonpos (by linarith), abs_of_nonpos (by linarith)]
    linarith

/-- Helper: Math.round moves a value by at most one half. -/
theorem jsRound_abs_sub (x : ℚ) : |(jsRound x : ℚ) - x| ≤ 1 / 2 := by
  unfold jsRound
  have h1 : ((⌊x + 1 / 2⌋ : ℤ) : ℚ) ≤ x + 1 / 2 := Int.floor_le _
  have h2 : x + 1 / 2 - 1 < ((⌊x + 1 / 2⌋ : ℤ) : ℚ) := Int.sub_one_lt_floor _
  rw [abs_le]
  constructor <;> linarith

/-- Helper: the clamp-and-round store moves the value at most half a unit
further from any target already inside [0, 255]. -/
theorem uint8Clamped_near (x t : ℚ) (h0 : 0 ≤ t) (h255 : t ≤ 255) :
    |uint8Clamped x - t| ≤ |x - t| + 1 / 2 := by
  unfold uint8Clamped
  have hmin : |min 255 x - t| ≤ |x - t| := abs_min_sub_le 255 x t h255
  have hmax : |max 0 (min 255 x) - t| ≤ |min 255 x - t| := abs_max_sub_le 0 (min 255 x) t h0
  have hr : |(jsRound (max 0 (min 255 x)) : ℚ) - max 0 (min 255 x)| ≤ 1 / 2 :=
    jsRound_abs_sub _
  calc |(jsRound (max 0 (min 255 x)) : ℚ) - t|
      ≤ |(jsRound (max 0 (min 255 x)) : ℚ) - max 0 (min 255 x)| + |max 0 (min 255 x) - t| :=
        abs_sub_le _ _ _
    _ ≤ 1 / 2 + |x - t| := add_le_add hr (hmax.trans hmin)
    _ = |x - t| + 1 / 2 := by ring

/-- Helper for C1: one channel update of the fast global pass lands within
255·epsilon + 1/2 of the original byte, whatever the incoming byte and
gradient were. -/
theorem updateChannel_bound (epsilon alpha grad origByte curByte : ℚ)
    (hε : 0 ≤ epsilon) (h0 : 0 ≤ origByte) (h255 : origByte ≤ 255) :
    |updateChannel epsilon alpha grad origByte curByte - origByte|
      ≤ 255 * epsilon + 1 / 2 := by
  unfold updateChannel
  dsimp only
  set O := origByte / 255 with hO
  set s := curByte / 255 + alpha * jsSign grad with hs
  have hc : |(if epsilon < |s - O| then O + epsilon * jsSign (s - O) else s) - O| ≤ epsilon :=
    clip_step_abs epsilon O s hε
  set v := if epsilon < |s - O| then O + epsilon * jsSign (s - O) else s with hv
  have h1 : |v * 255 - origByte| ≤ 255 * epsilon := by
    have hexp : v * 255 - origByte = (v - O) * 255 := by
      rw [hO]; ring
    rw [hexp, abs_mul, show |(255:ℚ)| = 255 by norm_num]
    nlinarith [hc]
  calc |uint8Clamped (v * 255) - origByte| ≤ |v * 255 - origByte| + 1 / 2 :=
        uint8Clamped_near _ _ h0 h255
    _ ≤ 255 * epsilon + 1 / 2 := by linarith

/-- Helper: one pass of the fast global perturbation preserves buffer length. -/
theorem perturbOnce_length (epsilon alpha : ℚ) (grads : ℕ → ℚ) (o c : List ℚ) :
    (perturbOnce epsilon alpha grads o c).length = c.length := by
  unfold perturbOnce
  simp

/-- Helper: pointwise description of one pass of the fast global
perturbation. -/
theorem perturbOnce_getD (epsilon alpha : ℚ) (grads : ℕ → ℚ) (o c : List ℚ)
    (j : ℕ) (hj : j < c.length) :
    (perturbOnce epsilon alpha grads o c).getD j 0
      = if j % 4 < 3 then updateChannel epsilon alpha (grads j) (o.getD j 0) (c.getD j 0)
        else c.getD j 0 := by
  unfold perturbOnce
  rw [List.getD_eq_getElem?_getD, List.getElem?_map, List.getElem?_range hj]
  rfl

/-- Helper: a fold whose step preserves list length preserves list length. -/
theorem foldl_preserves_length {β : Type} (g : List ℚ → β → List ℚ)
    (h : ∀ acc b, (g acc b).length = acc.length) (l : List β) (init : List ℚ) :
    (l.foldl g init).length = init.length := by
  induction l generalizing init with
  | nil => rfl
  | cons a l ih => rw [List.foldl_cons, ih, h]

/-- Helper: a typed-array store preserves buffer length. -/
theorem storeAt_length (l : List ℚ) (i : ℤ) (v : ℚ) :
    (storeAt l i v).length = l.length := by
  unfold storeAt
  split_ifs <;> simp

/-- Helper: one face-pattern pixel write preserves buffer length. -/
theorem facePixelWrite_length (sinO cosO : ℚ → ℚ) (epsilon strength : ℚ)
    (width height : ℕ) (regionX regionY : ℤ) (origData cur : List ℚ) (dxy : ℕ × ℕ) :
    (facePixelWrite sinO cosO epsilon strength width height regionX regionY origData cur dxy).length
      = cur.length := by
  unfold facePixelWrite
  dsimp only
  split_ifs
  · exact foldl_preserves_length _ (fun acc c => storeAt_length _ _ _) _ _
  · rfl

/-- Helper: the face-scoped pass preserves buffer length. -/
theorem applyFacePerturbations_length (sinO cosO : ℚ → ℚ) (epsilon : ℚ)
    (face : FaceRegion) (width height : ℕ) (origData newData : List ℚ) :
    (applyFacePerturbations sinO cosO epsilon face width height origData newData).length
      = newData.length := by
  unfold applyFacePerturbations
  refine foldl_preserves_length _ ?_ _ _
  intro acc pat
  exact foldl_preserves_length _
    (fun acc2 dxy => facePixelWrite_length _ _ _ _ _ _ _ _ _ _ _) _ _

/-- Helper: the iterated fast global pass preserves buffer length. -/
theorem applyFastGlobalPerturbations_length (epsilon : ℚ) (iterations : ℕ)
    (grads : ℕ → ℕ → ℚ) (o c : List ℚ) :
    (applyFastGlobalPerturbations epsilon iterations grads o c).length = c.length := by
  unfold applyFastGlobalPerturbations
  exact foldl_preserves_length _ (fun acc it => perturbOnce_length _ _ _ _ _) _ _

/-- Helper for C1: after at least one iteration of the fast global pass,
every RGB byte lies within 255·epsilon + 1/2 of the corresponding original
byte, for every gradient sequence and every starting buffer (so the bound
is re-established by the clip of the final step no matter what preceded
it). -/
theorem applyFastGlobalPerturbations_bound (epsilon : ℚ) (iterations : ℕ)
    (grads : ℕ → ℕ → ℚ) (o c : List ℚ) (j : ℕ)
    (hε : 0 ≤ epsilon) (hit : 1 ≤ iterations) (hj : j < c.length) (hch : j % 4 < 3)
    (h0 : 0 ≤ o.getD j 0) (h255 : o.getD j 0 ≤ 255) :
    |(applyFastGlobalPerturbations epsilon iterations grads o c).getD j 0 - o.getD j 0|
      ≤ 255 * epsilon + 1 / 2 := by
  obtain ⟨m, rfl⟩ : ∃ m, iterations = m + 1 := ⟨iterations - 1, by omega⟩
  unfold applyFastGlobalPerturbations
  rw [List.range_succ, List.foldl_append, List.foldl_cons, List.foldl_nil]
  have hlen : ((List.range m).foldl
      (fun acc iter => perturbOnce epsilon (epsilon / ((m + 1 : ℕ) : ℚ)) (grads iter) o acc)
      c).length = c.length :=
    foldl_preserves_length _ (fun acc it => perturbOnce_length _ _ _ _ _) _ _
  rw [perturbOnce_getD _ _ _ _ _ j (by rw [hlen]; exact hj), if_pos hch]
  exact updateChannel_bound _ _ _ _ _ hε h0 h255

/-- Helper for C1: one step of the iterative FGSM tensor update stays in the
epsilon-ball around the original normalized value. -/
theorem iterFGSMStep_bound (epsilon stepSize orig adv grad : ℚ) (hε : 0 ≤ epsilon)
    (hlo : -1 ≤ orig) (hhi : orig ≤ 1) :
    |iterFGSMStep epsilon stepSize orig adv grad - orig| ≤ epsilon := by
  unfold iterFGSMStep clipByValue
  dsimp only
  set cp := min epsilon (max (-epsilon) (adv + jsSign grad * stepSize - orig)) with hcp
  have habs : |cp| ≤ epsilon := by
    rw [abs_le]
    exact ⟨le_min (by linarith) (le_max_left _ _), min_le_left _ _⟩
  have hb : |min 1 (max (-1) (orig + cp)) - orig| ≤ |max (-1) (orig + cp) - orig| :=
    abs_min_sub_le 1 _ orig hhi
  have ha : |max (-1) (orig + cp) - orig| ≤ |orig + cp - orig| :=
    abs_max_sub_le (-1) _ orig hlo
  calc |min 1 (max (-1) (orig + cp)) - orig| ≤ |orig + cp - orig| := hb.trans ha
    _ = |cp| := by rw [add_sub_cancel_left]
    _ ≤ epsilon := habs

/-- C1: the epsilon-ball constraint.  (1) After any positive number of
iterations of the fast global pass, every RGB byte is within
255·epsilon + 1/2 (quantization tolerance) of the original byte, for every
gradient sequence and starting buffer, so the bound is re-established by
the clip of every step.  (2) The fast fawkes/combined attack (face pass at
1.5x strength followed by the global pass at 0.7x strength with 8
iterations) satisfies the same bound for the configured epsilon.  (3) So
does the fast AdvCloak attack with its capped parameters.  (4) One step of
the TensorFlow iterative FGSM update stays inside the epsilon-ball around
the original normalized pixel. -/
theorem epsilon_ball_invariant :
    (∀ (epsilon : ℚ) (iterations : ℕ) (grads : ℕ → ℕ → ℚ) (origData curData : List ℚ)
        (j : ℕ),
      0 ≤ epsilon → 1 ≤ iterations → j < curData.length → j % 4 < 3 →
      0 ≤ origData.getD j 0 → origData.getD j 0 ≤ 255 →
      |(applyFastGlobalPerturbations epsilon iterations grads origData curData).getD j 0
          - origData.getD j 0| ≤ 255 * epsilon + 1 / 2)
    ∧ (∀ (sinO cosO : ℚ → ℚ) (grads : ℕ → ℕ → ℚ) (faces : List FaceRegion) (epsilon : ℚ)
        (img : ImageData) (j : ℕ),
      0 ≤ epsilon → j < img.data.length → j % 4 < 3 →
      0 ≤ img.data.getD j 0 → img.data.getD j 0 ≤ 255 →
      |(applyFastAdversarialAttack sinO cosO grads faces epsilon 8 img).data.getD j 0
          - img.data.getD j 0| ≤ 255 * epsilon + 1 / 2)
    ∧ (∀ (grads : ℕ → ℕ → ℚ) (epsilon : ℚ) (iterations : ℕ) (img : ImageData) (j : ℕ),
      0 ≤ epsilon → 1 ≤ iterations → j < img.data.length → j % 4 < 3 →
      0 ≤ img.data.getD j 0 → img.data.getD j 0 ≤ 255 →
      |(fastProcessImageWithAdvCloak grads epsilon iterations img).data.getD j 0
          - img.data.getD j 0| ≤ 255 * epsilon + 1 / 2)
    ∧ (∀ (epsilon stepSize orig adv grad : ℚ), 0 ≤ epsilon → -1 ≤ orig → orig ≤ 1 →
      |iterFGSMStep epsilon stepSize orig adv grad - orig| ≤ epsilon) := by
  refine ⟨?_, ?_, ?_, fun e s o a g h1 h2 h3 => iterFGSMStep_bound e s o a g h1 h2 h3⟩
  · intro epsilon iterations grads origData curData j hε hit hj hch h0 h255
    exact applyFastGlobalPerturbations_bound epsilon iterations grads origData curData j
      hε hit hj hch h0 h255
  · intro sinO cosO grads faces epsilon img j hε hj hch h0 h255
    unfold applyFastAdversarialAttack
    dsimp only
    have hlenF : (faces.foldl
        (fun acc f => applyFacePerturbations sinO cosO (epsilon * 1.5) f img.width img.height
          img.data acc) img.data).length = img.data.length :=
      foldl_preserves_length _
        (fun acc f => applyFacePerturbations_length _ _ _ _ _ _ _ _) _ _
    have hb := applyFastGlobalPerturbations_bound (epsilon * 0.7) 8 grads img.data
      (faces.foldl
        (fun acc f => applyFacePerturbations sinO cosO (epsilon * 1.5) f img.width img.height
          img.data acc) img.data) j
      (by nlinarith) (by norm_num) (by rw [hlenF]; exact hj) hch h0 h255
    have : 255 * (epsilon * 0.7) + 1 / 2 ≤ 255 * epsilon + 1 / 2 := by nlinarith
    linarith
  · intro grads epsilon iterations img j hε hit hj hch h0 h255
    unfold fastProcessImageWithAdvCloak applyFastGlobalAttack fastAdvCloakAppliedEpsilon
      fastAdvCloakAppliedIterations
    dsimp only
    have hb := applyFastGlobalPerturbations_bound (min epsilon 0.06) (min iterations 15) grads
      img.data img.data j
      (le_min hε (by norm_num)) (Nat.le_min.mpr ⟨hit, by norm_num⟩) hj hch h0 h255
    have : 255 * min epsilon 0.06 + 1 / 2 ≤ 255 * epsilon + 1 / 2 := by
      have := min_le_left epsilon (0.06 : ℚ)
      nlinarith
    linarith

/-- C1 witness: the four parts of the epsilon-ball theorem instantiated on
concrete one-pixel inputs with epsilon = 1/20. -/
theorem epsilon_ball_invariant_witness :
    ((0:ℚ) ≤ 1 / 20 ∧ 1 ≤ 1 ∧ 0 < ([100, 100, 100, 255] : List ℚ).length ∧ 0 % 4 < 3
      ∧ (0:ℚ) ≤ ([100, 100, 100, 255] : List ℚ).getD 0 0
      ∧ ([100, 100, 100, 255] : List ℚ).getD 0 0 ≤ 255)
    ∧ |(applyFastGlobalPerturbations (1 / 20) 1 (fun _ _ => 1) [100, 100, 100, 255]
          [100, 100, 100, 255]).getD 0 0 - ([100, 100, 100, 255] : List ℚ).getD 0 0|
        ≤ 255 * (1 / 20) + 1 / 2
    ∧ |(applyFastAdversarialAttack (fun _ => 0) (fun _ => 0) (fun _ _ => 1) [] (1 / 20) 8
          ⟨1, 1, [100, 100, 100, 255]⟩).data.getD 0 0
          - (⟨1, 1, [100, 100, 100, 255]⟩ : ImageData).data.getD 0 0| ≤ 255 * (1 / 20) + 1 / 2
    ∧ |(fastProcessImageWithAdvCloak (fun _ _ => 1) (1 / 20) 12
          ⟨1, 1, [100, 100, 100, 255]⟩).data.getD 0 0
          - (⟨1, 1, [100, 100, 100, 255]⟩ : ImageData).data.getD 0 0| ≤ 255 * (1 / 20) + 1 / 2
    ∧ |iterFGSMStep (1 / 20) (1 / 100) (1 / 2) (3 / 5) 1 - 1 / 2| ≤ 1 / 20 :=
  ⟨⟨by norm_num, le_refl _, by norm_num, by norm_num,
      by norm_num [List.getD_cons_zero], by norm_num [List.getD_cons_zero]⟩,
    epsilon_ball_invariant.1 (1 / 20) 1 (fun _ _ => 1) [100, 100, 100, 255]
      [100, 100, 100, 255] 0 (by norm_num) (le_refl _) (by norm_num) (by norm_num)
      (by norm_num [List.getD_cons_zero]) (by norm_num [List.getD_cons_zero]),
    epsilon_ball_invariant.2.1 (fun _ => 0) (fun _ => 0) (fun _ _ => 1) [] (1 / 20)
      ⟨1, 1, [100, 100, 100, 255]⟩ 0 (by norm_num) (by norm_num) (by norm_num)
      (by norm_num [List.getD_cons_zero]) (by norm_num [List.getD_cons_zero]),
    epsilon_ball_invariant.2.2.1 (fun _ _ => 1) (1 / 20) 12
      ⟨1, 1, [100, 100, 100, 255]⟩ 0 (by norm_num) (by norm_num) (by norm_num) (by norm_num)
      (by norm_num [List.getD_cons_zero]) (by norm_num [List.getD_cons_zero]),
    epsilon_ball_invariant.2.2.2 (1 / 20) (1 / 100) (1 / 2) (3 / 5) 1 (by norm_num)
      (by norm_num) (by norm_num)⟩
